import Mathlib

/-!
Verification of the vehicle-classifier-api repository against its
natural-language specification.

The development shallowly embeds the two FastAPI services of the repository:

* `ScriptsApp` models `src/scripts/app.py` (the correction-feedback service):
  configuration, model loading, softmax prediction decoding, the `/correct`
  correction store and the `/stats` endpoint.
* `AppMain` models `src/app/main.py` together with `src/app/utils.py`
  (the batch-prediction service): model loading, `postprocess_output`,
  `get_class_name`, and `batch_predict` with per-item failure isolation.

External collaborators (PIL image decoding, the onnxruntime engine, the
filesystem) are modelled as explicit parameters: a file carries the result
of decoding it, a session carries the engine's `run` function, and the
durable corrections directory is an explicit `Store` value threaded through
the handlers.  Numeric model outputs are modelled over `ℚ` where the code
does only comparisons and maxima, and over `ℝ` where the code applies the
exponential (the softmax path).
-/

namespace VehicleAPI

/-- First-occurrence arg-max scan: `i` is the index of the next element,
`bi`/`bv` the index and value of the best element seen so far.  A later
element replaces the best only when strictly greater, exactly as
`numpy.argmax` keeps the first occurrence of the maximum. -/
def argmaxFrom {α : Type} [LinearOrder α] (i bi : ℕ) (bv : α) : List α → ℕ
  | [] => bi
  | x :: xs => if bv < x then argmaxFrom (i + 1) i x xs else argmaxFrom (i + 1) bi bv xs

/-- `numpy.argmax` over a vector: index of the first maximal element
(`0` on the empty vector, which numpy instead rejects). -/
def npArgmax {α : Type} [LinearOrder α] : List α → ℕ
  | [] => 0
  | x :: xs => argmaxFrom 1 0 x xs

/-- `numpy.max` over a vector, with a default for the empty vector
(numpy instead rejects the empty vector; all uses here are nonempty). -/
def npMaxD {α : Type} [LinearOrder α] (d : α) : List α → α
  | [] => d
  | x :: xs => xs.foldl max x

end VehicleAPI

namespace ScriptsApp

open VehicleAPI

/-- `CONFIG["class_names"]` of `src/scripts/app.py`. -/
def CONFIG_class_names : List String := ["front", "rear"]

/-- `CONFIG["retrain_threshold"]` of `src/scripts/app.py`. -/
def CONFIG_retrain_threshold : ℕ := 50

/-- The durable corrections directory: the filenames currently persisted
under `corrections/front` and `corrections/rear`.  `os.listdir` of either
directory returns exactly these names. -/
structure Store where
  front : List String
  rear : List String
deriving DecidableEq, Repr

/-- Number of entries of `corrections/front` (`len(os.listdir("corrections/front"))`). -/
def Store.countFront (st : Store) : ℕ := st.front.length

/-- Number of entries of `corrections/rear` (`len(os.listdir("corrections/rear"))`). -/
def Store.countRear (st : Store) : ℕ := st.rear.length

/-- `image.save(save_path)` for `save_path = corrections/<cls>/<name>`:
creates the file, or overwrites it (leaving the directory listing unchanged)
when a file of that name already exists. -/
def Store.save (st : Store) (cls name : String) : Store :=
  if cls = "front" then
    { st with front := if name ∈ st.front then st.front else name :: st.front }
  else
    { st with rear := if name ∈ st.rear then st.rear else name :: st.rear }

/-- Failures of the `/correct` handler.  `invalidClass` models the
`HTTPException(400, "Invalid class...")` raised when `correct_class` is not
in `CONFIG["class_names"]`; `decodeError` models a `PIL` failure while
opening the uploaded bytes.  (The handler's blanket `except Exception`
converts either into a `success: false` JSON response.) -/
inductive CorrectErr where
  | invalidClass
  | decodeError
deriving DecidableEq, Repr

/-- The success payload of the `/correct` handler. -/
structure CorrectOk where
  message : String
  correction_count : ℕ
  threshold : ℕ
  retraining_triggered : Bool
  corrections_front : ℕ
  corrections_rear : ℕ
deriving DecidableEq, Repr

/-- The `/correct` handler (`correct_prediction` of `src/scripts/app.py`).
Inputs: the current persisted store, whether the uploaded bytes decode as an
image, the timestamp string, the upload's filename, and the two form fields.
It validates `correct_class` against `CONFIG["class_names"]`, saves the image
under `corrections/<correct_class>/<timestamp>_<filename>`, recounts both
class directories, and reports `retraining_triggered = (total >= threshold)`.
Returns the response together with the new store state. -/
def correct_prediction (st : Store) (decodeOk : Bool) (timestamp filename : String)
    (predicted_class correct_class : String) : Except CorrectErr CorrectOk × Store :=
  if correct_class ∈ CONFIG_class_names then
    if decodeOk then
      let saved := timestamp ++ "_" ++ filename
      let st' := st.save correct_class saved
      let cf := st'.countFront
      let cr := st'.countRear
      let total := cf + cr
      let trig : Bool := decide (CONFIG_retrain_threshold ≤ total)
      let baseMsg := "Correction saved successfully"
      (.ok { message := if trig then baseMsg ++ " - Retraining will be triggered" else baseMsg
             correction_count := total
             threshold := CONFIG_retrain_threshold
             retraining_triggered := trig
             corrections_front := cf
             corrections_rear := cr }, st')
    else (.error .decodeError, st)
  else (.error .invalidClass, st)

/-- Process state relevant to `/stats`: the durable store and whether the
in-memory `ort_session` is loaded. -/
structure ProcState where
  store : Store
  modelLoaded : Bool
deriving DecidableEq, Repr

/-- A process restart: the durable corrections directory survives, the
in-memory session does not (the fresh process starts with `ort_session = None`). -/
def restart (ps : ProcState) : ProcState :=
  { store := ps.store, modelLoaded := false }

/-- The `/stats` response payload. -/
structure StatsResp where
  correction_count : ℕ
  threshold : ℕ
  progress_percentage : ℚ
  corrections_front : ℕ
  corrections_rear : ℕ
  model_loaded : Bool
deriving DecidableEq, Repr

/-- Python's `round(x, 2)` over exact rationals.  (Mathlib's `round` breaks
ties upward while Python breaks ties to even; no computation in this
development hits a tie.) -/
def qRound2 (q : ℚ) : ℚ := (round (q * 100) : ℤ) / 100

/-- The `/stats` handler (`get_stats` of `src/scripts/app.py`): recounts the
two class directories from the durable store on every query. -/
def get_stats (ps : ProcState) : StatsResp :=
  let cf := ps.store.countFront
  let cr := ps.store.countRear
  let total := cf + cr
  { correction_count := total
    threshold := CONFIG_retrain_threshold
    progress_percentage := qRound2 ((total : ℚ) / (CONFIG_retrain_threshold : ℚ) * 100)
    corrections_front := cf
    corrections_rear := cr
    model_loaded := ps.modelLoaded }

/-- `n` successive valid corrections of class `front` with distinct
filenames, starting from the empty corrections directory. -/
def submitSeq : ℕ → Store
  | 0 => ⟨[], []⟩
  | n + 1 => (correct_prediction (submitSeq n) true "t" (toString n) "rear" "front").2

/-- A loaded onnxruntime session: `run` maps the preprocessed input tensor to
the model's raw logit vector, or fails (the engine can throw). -/
structure Sess where
  run : List ℚ → Except String (List ℝ)

/-- Whether the model artifact at `CONFIG["model_path"]` exists and can be
opened by `ort.InferenceSession`. -/
structure ArtifactEnv where
  artifactExists : Bool
  wellFormed : Bool
deriving DecidableEq, Repr

/-- `load_model` of `src/scripts/app.py`: returns `False` (leaving the
session unloaded) when the artifact is missing, catches any loading
exception and returns `False`, and otherwise installs the engine session and
returns `True`.  `engine` is the session `ort.InferenceSession` would
produce on success.  No exception escapes this function. -/
def load_model (env : ArtifactEnv) (engine : Sess) : Bool × Option Sess :=
  if env.artifactExists = false then (false, none)
  else if env.wellFormed then (true, some engine)
  else (false, none)

/-- Startup failures that would escape a startup hook and abort the process. -/
inductive LoadFailure where
  | fileNotFound
  | loadError
deriving DecidableEq, Repr

/-- `startup_event` of `src/scripts/app.py`: calls `load_model`, prints a
message either way, and never raises — so startup always completes, with the
session loaded or not. -/
def startup_event (env : ArtifactEnv) (engine : Sess) : Except LoadFailure (Option Sess) :=
  .ok (load_model env engine).2

/-- A concrete engine session used to instantiate universally quantified
statements: its run call always fails. -/
def noEngine : Sess := ⟨fun _ => .error "no model"⟩

/-- Failures of the `/predict` path of `src/scripts/app.py`.
`modelNotLoaded` is the `HTTPException(500, "Model not loaded")` raised when
`ort_session is None`; `predictionError` wraps an engine failure;
`indexError` models `CONFIG["class_names"][pred_idx]` with `pred_idx` out of
range. -/
inductive PredErr where
  | modelNotLoaded
  | predictionError (msg : String)
  | indexError
deriving DecidableEq, Repr

/-- The numerically stabilized softmax of `predict_image`
(`src/scripts/app.py` lines 91-92): `exp(logits - max(logits))` divided by
its sum. -/
noncomputable def softmaxProbs (logits : List ℝ) : List ℝ :=
  let m := npMaxD 0 logits
  let exps := logits.map (fun x => Real.exp (x - m))
  let s := exps.sum
  exps.map (fun e => e / s)

/-- Python's `round(x, 2)` over the reals (ties, which no computation here
hits, are broken upward rather than to even). -/
noncomputable def rRound2 (x : ℝ) : ℝ := (round (x * 100) : ℤ) / 100

/-- The prediction payload of `predict_image`: label, confidence as a
percentage rounded to two decimals, and the per-class percentage
distribution. -/
structure PredictOut where
  predicted_class : String
  confidence : ℝ
  probabilities : List (String × ℝ)

/-- `predict_image` of `src/scripts/app.py`: fails fast with
`ModelNotLoaded` when no session is loaded; otherwise runs the engine,
softmax-normalizes the logits, takes the arg-max, and resolves the label by
indexing `CONFIG["class_names"]` (an out-of-range index raises, modelled as
`indexError`; the per-class dictionary is totalized with default values it
never hits when the logit vector covers the class list). -/
noncomputable def predict_image : Option Sess → List ℚ → Except PredErr PredictOut
  | none, _ => .error .modelNotLoaded
  | some s, img =>
    match s.run img with
    | .error e => .error (.predictionError e)
    | .ok logits =>
      let probs := softmaxProbs logits
      let pred_idx := npArgmax probs
      if h : pred_idx < CONFIG_class_names.length then
        .ok { predicted_class := CONFIG_class_names.get ⟨pred_idx, h⟩
              confidence := rRound2 (probs.getD pred_idx 0 * 100)
              probabilities := (List.range CONFIG_class_names.length).map
                (fun i => (CONFIG_class_names.getD i "", rRound2 (probs.getD i 0 * 100))) }
      else .error .indexError

/-- A concrete engine session whose run call yields the raw logit vector
`[2.0, 0.5]` of the specification's softmax scenario. -/
noncomputable def logitEngine : Sess := ⟨fun _ => .ok [2, 1/2]⟩

end ScriptsApp

namespace AppMain

open VehicleAPI

/-- The hard-coded class list of `get_class_name` in `src/app/utils.py`. -/
def classes : List String := ["front_vehicle", "rear_vehicle"]

/-- `get_class_name` of `src/app/utils.py`: resolves an index through
`classes`, yielding `"unknown"` when the index is out of range. -/
def get_class_name (index : ℕ) : String :=
  if h : index < classes.length then classes.get ⟨index, h⟩ else "unknown"

/-- `postprocess_output` of `src/app/utils.py`: the arg-max index of the raw
output vector together with its maximum raw score (no normalization). -/
def postprocess_output (output : List ℚ) : ℕ × ℚ :=
  (npArgmax output, npMaxD 0 output)

/-- Python's `round(x, 4)` over exact rationals (ties, which no computation
here hits, are broken upward rather than to even). -/
def round4 (q : ℚ) : ℚ := (round (q * 10000) : ℤ) / 10000

/-- The per-item prediction payload of `src/app/main.py`. -/
structure Prediction where
  label : String
  class_index : ℕ
  confidence : ℚ
deriving DecidableEq, Repr

/-- One per-item outcome appended to `results` by `batch_predict`. -/
structure ItemResult where
  filename : String
  success : Bool
  prediction : Option Prediction
  error : Option String
deriving DecidableEq, Repr

deriving instance DecidableEq for Except

/-- An uploaded file as the handlers see it: its filename, and the result of
`Image.open(BytesIO(contents)).convert("RGB")` followed by
`preprocess_image` — a preprocessed input tensor, or the decoding error
message. -/
structure UFile where
  filename : String
  decoded : Except String (List ℚ)
deriving DecidableEq, Repr

instance : Inhabited UFile := ⟨⟨"", Except.error ""⟩⟩

instance : Inhabited ItemResult := ⟨⟨"", false, none, none⟩⟩

/-- Processing of one file inside the `batch_predict` loop: a decode failure
yields a `{filename, success:false, error}` outcome with no inference call;
otherwise `session.run` is called exactly once, and its failure likewise
yields a per-item error outcome.  Returns the outcome together with the
number of inference calls made (0 or 1). -/
def processItem (run : List ℚ → Except String (List ℚ)) (f : UFile) : ItemResult × ℕ :=
  match f.decoded with
  | .error e => ({ filename := f.filename, success := false, prediction := none
                   error := some e }, 0)
  | .ok input_data =>
    match run input_data with
    | .error e => ({ filename := f.filename, success := false, prediction := none
                     error := some e }, 1)
    | .ok out =>
      let pc := postprocess_output out
      ({ filename := f.filename, success := true
         prediction := some { label := get_class_name pc.1, class_index := pc.1
                              confidence := round4 pc.2 }
         error := none }, 1)

/-- The `for file in files` loop of `batch_predict`: processes the files in
order, accumulating outcomes and the total number of inference calls. -/
def processAll (run : List ℚ → Except String (List ℚ)) : List UFile → List ItemResult × ℕ
  | [] => ([], 0)
  | f :: fs =>
    let r := processItem run f
    let rs := processAll run fs
    (r.1 :: rs.1, r.2 + rs.2)

/-- The `HTTPException`s `batch_predict` raises before processing:
`503 Model not loaded` and `400 Maximum 10 images allowed per batch`. -/
inductive HErr where
  | modelNotLoaded
  | batchTooLarge
deriving DecidableEq, Repr

/-- The top-level response of `batch_predict`. -/
structure BatchResp where
  success : Bool
  total_images : ℕ
  results : List ItemResult
deriving DecidableEq, Repr

/-- `batch_predict` of `src/app/main.py`: rejects when no session is loaded,
rejects batches of more than 10 files before touching any item, and
otherwise processes every item independently, always answering
`success: true` with `total_images = len(files)`.  Returns the response
together with the total number of inference calls made. -/
def batch_predict (sess : Option (List ℚ → Except String (List ℚ))) (files : List UFile) :
    Except HErr BatchResp × ℕ :=
  match sess with
  | none => (.error .modelNotLoaded, 0)
  | some run =>
    if files.length > 10 then (.error .batchTooLarge, 0)
    else
      let rc := processAll run files
      (.ok { success := true, total_images := files.length, results := rc.1 }, rc.2)

/-- `load_model` of `src/app/main.py`: raises `FileNotFoundError` when the
artifact is missing, and lets an `ort.InferenceSession` failure propagate;
either exception is logged and then **re-raised** (line 62), so it escapes
the startup hook.  `engine` is the run function a successful
`ort.InferenceSession` would provide. -/
def load_model_app (env : ScriptsApp.ArtifactEnv)
    (engine : List ℚ → Except String (List ℚ)) :
    Except ScriptsApp.LoadFailure (List ℚ → Except String (List ℚ)) :=
  if env.artifactExists = false then .error .fileNotFound
  else if env.wellFormed then .ok engine
  else .error .loadError

/-- A concrete engine used to instantiate universally quantified statements:
it echoes its input tensor as the output vector. -/
def sampleRun : List ℚ → Except String (List ℚ) := fun t => .ok t

/-- A concrete two-file batch: the first file decodes, the second does not. -/
def sampleBatch : List UFile :=
  [⟨"a.jpg", .ok [2, 1/2]⟩, ⟨"b.jpg", .error "cannot identify image"⟩]

end AppMain

namespace VehicleAPI

theorem argmaxFrom_lt {α : Type} [LinearOrder α] (xs : List α) :
    ∀ (i bi : ℕ) (bv : α), bi < i → argmaxFrom i bi bv xs < i + xs.length := by
  induction xs with
  | nil => intro i bi bv h; simpa [argmaxFrom] using h
  | cons x xs ih =>
    intro i bi bv h
    simp only [argmaxFrom, List.length_cons]
    by_cases hc : bv < x
    · rw [if_pos hc]
      have h2 := ih (i + 1) i x (Nat.lt_succ_self i)
      omega
    · rw [if_neg hc]
      have h2 := ih (i + 1) bi bv (Nat.lt_succ_of_lt h)
      omega

theorem npArgmax_lt_length {α : Type} [LinearOrder α] (l : List α) (h : l ≠ []) :
    npArgmax l < l.length := by
  cases l with
  | nil => exact absurd rfl h
  | cons x xs =>
    have h2 := argmaxFrom_lt xs 1 0 x Nat.zero_lt_one
    simp only [npArgmax, List.length_cons]
    omega

theorem foldl_max_eq_or_mem {α : Type} [LinearOrder α] (xs : List α) :
    ∀ a : α, xs.foldl max a = a ∨ xs.foldl max a ∈ xs := by
  induction xs with
  | nil => intro a; left; rfl
  | cons x xs ih =>
    intro a
    rcases ih (max a x) with h | h
    · rcases max_choice a x with hm | hm
      · left; rw [List.foldl_cons, h, hm]
      · right; rw [List.foldl_cons, h, hm]; exact List.mem_cons_self x xs
    · right; exact List.mem_cons_of_mem x h

theorem le_foldl_max_init {α : Type} [LinearOrder α] (xs : List α) :
    ∀ a : α, a ≤ xs.foldl max a := by
  induction xs with
  | nil => intro a; exact le_refl a
  | cons x xs ih => intro a; exact le_trans (le_max_left a x) (ih (max a x))

theorem le_foldl_max_of_mem {α : Type} [LinearOrder α] (xs : List α) :
    ∀ (a y : α), y ∈ xs → y ≤ xs.foldl max a := by
  induction xs with
  | nil => intro a y hy; cases hy
  | cons x xs ih =>
    intro a y hy
    rcases List.mem_cons.mp hy with rfl | hy
    · exact le_trans (le_max_right a y) (le_foldl_max_init xs (max a y))
    · exact ih (max a x) y hy

theorem npMaxD_mem {α : Type} [LinearOrder α] (d : α) (l : List α) (h : l ≠ []) :
    npMaxD d l ∈ l := by
  cases l with
  | nil => exact absurd rfl h
  | cons x xs =>
    rcases foldl_max_eq_or_mem xs x with h2 | h2
    · rw [npMaxD, h2]; exact List.mem_cons_self x xs
    · exact List.mem_cons_of_mem x h2

theorem le_npMaxD {α : Type} [LinearOrder α] (d : α) (l : List α) (y : α) (hy : y ∈ l) :
    y ≤ npMaxD d l := by
  cases l with
  | nil => cases hy
  | cons x xs =>
    rcases List.mem_cons.mp hy with rfl | hy
    · exact le_foldl_max_init xs y
    · exact le_foldl_max_of_mem xs x y hy

theorem list_sum_map_div (l : List ℝ) (c : ℝ) :
    (l.map (fun x => x / c)).sum = l.sum / c := by
  induction l with
  | nil => simp
  | cons x xs ih => simp [ih, add_div]

end VehicleAPI

namespace ScriptsApp

open VehicleAPI

set_option maxRecDepth 8000

theorem correct_prediction_valid_eq (st : Store) (ts fn pc cc : String)
    (hcc : cc ∈ CONFIG_class_names) :
    correct_prediction st true ts fn pc cc =
      (.ok { message := if decide (CONFIG_retrain_threshold ≤
                 (st.save cc (ts ++ "_" ++ fn)).countFront +
                 (st.save cc (ts ++ "_" ++ fn)).countRear) then
               "Correction saved successfully - Retraining will be triggered"
             else "Correction saved successfully"
             correction_count := (st.save cc (ts ++ "_" ++ fn)).countFront +
               (st.save cc (ts ++ "_" ++ fn)).countRear
             threshold := CONFIG_retrain_threshold
             retraining_triggered := decide (CONFIG_retrain_threshold ≤
               (st.save cc (ts ++ "_" ++ fn)).countFront +
               (st.save cc (ts ++ "_" ++ fn)).countRear)
             corrections_front := (st.save cc (ts ++ "_" ++ fn)).countFront
             corrections_rear := (st.save cc (ts ++ "_" ++ fn)).countRear },
       st.save cc (ts ++ "_" ++ fn)) := by
  simp only [correct_prediction, if_pos hcc, if_true]
  rfl

/-- C1: the retrain trigger of the `/correct` handler is a pure threshold
comparison.  Every valid correction submission answers
`retraining_triggered = true` exactly when the recounted total of persisted
corrections has reached the configured threshold 50, and concretely,
starting from an empty corrections directory, the 49th persisted correction
reports `triggered = false` while the 50th reports `triggered = true`. -/
theorem retrain_trigger_threshold :
    (∀ (st : Store) (ts fn pc cc : String), cc ∈ CONFIG_class_names →
      ∃ resp : CorrectOk, (correct_prediction st true ts fn pc cc).1 = .ok resp ∧
        resp.threshold = 50 ∧
        resp.correction_count = (correct_prediction st true ts fn pc cc).2.countFront +
          (correct_prediction st true ts fn pc cc).2.countRear ∧
        (resp.retraining_triggered = true ↔ 50 ≤ resp.correction_count)) ∧
    (∃ r49 : CorrectOk,
      (correct_prediction (submitSeq 48) true "t" "48" "rear" "front").1 = .ok r49 ∧
      r49.correction_count = 49 ∧ r49.retraining_triggered = false) ∧
    (∃ r50 : CorrectOk,
      (correct_prediction (submitSeq 49) true "t" "49" "rear" "front").1 = .ok r50 ∧
      r50.correction_count = 50 ∧ r50.retraining_triggered = true) := by
  refine ⟨?_, ?_, ?_⟩
  · intro st ts fn pc cc hcc
    rw [correct_prediction_valid_eq st ts fn pc cc hcc]
    exact ⟨_, rfl, rfl, rfl, decide_eq_true_iff⟩
  · exact ⟨{ message := "Correction saved successfully", correction_count := 49,
             threshold := 50, retraining_triggered := false,
             corrections_front := 49, corrections_rear := 0 },
           by decide, rfl, rfl⟩
  · exact ⟨{ message := "Correction saved successfully - Retraining will be triggered",
             correction_count := 50, threshold := 50, retraining_triggered := true,
             corrections_front := 50, corrections_rear := 0 },
           by decide, rfl, rfl⟩

/-- Witness for C1: the general threshold property applied to a concrete
submission into an empty corrections directory. -/
theorem retrain_trigger_threshold_witness :
    ("front" ∈ CONFIG_class_names) ∧
    (∃ resp : CorrectOk,
      (correct_prediction ⟨[], []⟩ true "20250101" "img.jpg" "rear" "front").1 = .ok resp ∧
      resp.threshold = 50 ∧
      resp.correction_count =
        (correct_prediction ⟨[], []⟩ true "20250101" "img.jpg" "rear" "front").2.countFront +
        (correct_prediction ⟨[], []⟩ true "20250101" "img.jpg" "rear" "front").2.countRear ∧
      (resp.retraining_triggered = true ↔ 50 ≤ resp.correction_count)) :=
  ⟨by decide,
   retrain_trigger_threshold.1 ⟨[], []⟩ "20250101" "img.jpg" "rear" "front" (by decide)⟩

/-- C5: a correction submission whose `correct_class` is not one of the
configured class names is rejected with the invalid-class error, no image is
saved, and the persisted per-class correction counts are unchanged. -/
theorem invalid_class_unchanged (st : Store) (d : Bool) (ts fn pc cc : String)
    (h : cc ∉ CONFIG_class_names) :
    correct_prediction st d ts fn pc cc = (.error .invalidClass, st) ∧
    (correct_prediction st d ts fn pc cc).2.countFront = st.countFront ∧
    (correct_prediction st d ts fn pc cc).2.countRear = st.countRear := by
  have he : correct_prediction st d ts fn pc cc = (.error .invalidClass, st) := by
    simp only [correct_prediction, if_neg h]
  exact ⟨he, by rw [he], by rw [he]⟩

/-- Witness for C5: the class `"truck"` is rejected over a nonempty store. -/
theorem invalid_class_unchanged_witness :
    ("truck" ∉ CONFIG_class_names) ∧
    (correct_prediction ⟨["a"], ["b"]⟩ true "t" "x.jpg" "front" "truck" =
      (.error .invalidClass, ⟨["a"], ["b"]⟩) ∧
    (correct_prediction ⟨["a"], ["b"]⟩ true "t" "x.jpg" "front" "truck").2.countFront =
      (Store.mk ["a"] ["b"]).countFront ∧
    (correct_prediction ⟨["a"], ["b"]⟩ true "t" "x.jpg" "front" "truck").2.countRear =
      (Store.mk ["a"] ["b"]).countRear) :=
  ⟨by decide, invalid_class_unchanged ⟨["a"], ["b"]⟩ true "t" "x.jpg" "front" "truck" (by decide)⟩

/-- C9: in every stats response and every successful correction response the
reported total equals the sum of the per-class counts; both are recomputed
from the durable store (the directory listings), so they are invariant under
a process restart, which clears the in-memory session but keeps the store. -/
theorem tally_sum_and_durability :
    (∀ ps : ProcState,
      (get_stats ps).correction_count =
        (get_stats ps).corrections_front + (get_stats ps).corrections_rear ∧
      (get_stats ps).corrections_front = ps.store.countFront ∧
      (get_stats ps).corrections_rear = ps.store.countRear ∧
      (get_stats (restart ps)).correction_count = (get_stats ps).correction_count ∧
      (get_stats (restart ps)).corrections_front = (get_stats ps).corrections_front ∧
      (get_stats (restart ps)).corrections_rear = (get_stats ps).corrections_rear) ∧
    (∀ (st : Store) (ts fn pc cc : String), cc ∈ CONFIG_class_names →
      ∃ resp : CorrectOk, (correct_prediction st true ts fn pc cc).1 = .ok resp ∧
        resp.correction_count = resp.corrections_front + resp.corrections_rear ∧
        resp.corrections_front = (correct_prediction st true ts fn pc cc).2.countFront ∧
        resp.corrections_rear = (correct_prediction st true ts fn pc cc).2.countRear) := by
  constructor
  · intro ps; exact ⟨rfl, rfl, rfl, rfl, rfl, rfl⟩
  · intro st ts fn pc cc hcc
    rw [correct_prediction_valid_eq st ts fn pc cc hcc]
    exact ⟨_, rfl, rfl, rfl, rfl⟩

/-- Witness for C9: the stats invariants at a concrete process state and the
correction-response invariant at a concrete valid submission. -/
theorem tally_sum_and_durability_witness :
    ((get_stats ⟨⟨["a", "b"], ["c"]⟩, true⟩).correction_count =
        (get_stats ⟨⟨["a", "b"], ["c"]⟩, true⟩).corrections_front +
        (get_stats ⟨⟨["a", "b"], ["c"]⟩, true⟩).corrections_rear ∧
      (get_stats ⟨⟨["a", "b"], ["c"]⟩, true⟩).corrections_front =
        (Store.mk ["a", "b"] ["c"]).countFront ∧
      (get_stats ⟨⟨["a", "b"], ["c"]⟩, true⟩).corrections_rear =
        (Store.mk ["a", "b"] ["c"]).countRear ∧
      (get_stats (restart ⟨⟨["a", "b"], ["c"]⟩, true⟩)).correction_count =
        (get_stats ⟨⟨["a", "b"], ["c"]⟩, true⟩).correction_count ∧
      (get_stats (restart ⟨⟨["a", "b"], ["c"]⟩, true⟩)).corrections_front =
        (get_stats ⟨⟨["a", "b"], ["c"]⟩, true⟩).corrections_front ∧
      (get_stats (restart ⟨⟨["a", "b"], ["c"]⟩, true⟩)).corrections_rear =
        (get_stats ⟨⟨["a", "b"], ["c"]⟩, true⟩).corrections_rear) ∧
    ("rear" ∈ CONFIG_class_names) ∧
    (∃ resp : CorrectOk,
      (correct_prediction ⟨["a"], []⟩ true "t2" "y.jpg" "front" "rear").1 = .ok resp ∧
        resp.correction_count = resp.corrections_front + resp.corrections_rear ∧
        resp.corrections_front =
          (correct_prediction ⟨["a"], []⟩ true "t2" "y.jpg" "front" "rear").2.countFront ∧
        resp.corrections_rear =
          (correct_prediction ⟨["a"], []⟩ true "t2" "y.jpg" "front" "rear").2.countRear) :=
  ⟨tally_sum_and_durability.1 ⟨⟨["a", "b"], ["c"]⟩, true⟩, by decide,
   tally_sum_and_durability.2 ⟨["a"], []⟩ "t2" "y.jpg" "front" "rear" (by decide)⟩

end ScriptsApp

namespace AppMain

open VehicleAPI

theorem processAll_fst (run : List ℚ → Except String (List ℚ)) (files : List UFile) :
    (processAll run files).1 = files.map (fun f => (processItem run f).1) := by
  induction files with
  | nil => rfl
  | cons f fs ih => simp [processAll, ih]

theorem processAll_length (run : List ℚ → Except String (List ℚ)) (files : List UFile) :
    (processAll run files).1.length = files.length := by
  rw [processAll_fst]; exact List.length_map files _

theorem processAll_getD (run : List ℚ → Except String (List ℚ)) (files : List UFile)
    (i : ℕ) (hi : i < files.length) :
    (processAll run files).1.getD i default = (processItem run (files.getD i default)).1 := by
  rw [processAll_fst]
  have hx : files[i]? = some files[i] := List.getElem?_eq_getElem hi
  rw [List.getD_eq_getElem?_getD, List.getElem?_map, hx, List.getD_eq_getElem?_getD, hx]
  rfl

theorem processItem_filename (run : List ℚ → Except String (List ℚ)) (f : UFile) :
    (processItem run f).1.filename = f.filename := by
  cases hd : f.decoded with
  | error e => simp [processItem, hd]
  | ok t =>
    cases hr : run t with
    | error e => simp [processItem, hd, hr]
    | ok out => simp [processItem, hd, hr]

theorem processItem_decode_error (run : List ℚ → Except String (List ℚ)) (f : UFile)
    (e : String) (hd : f.decoded = .error e) :
    processItem run f =
      ({ filename := f.filename, success := false, prediction := none, error := some e }, 0) := by
  simp [processItem, hd]

theorem processItem_run_error (run : List ℚ → Except String (List ℚ)) (f : UFile)
    (t : List ℚ) (e : String) (hd : f.decoded = .ok t) (hr : run t = .error e) :
    processItem run f =
      ({ filename := f.filename, success := false, prediction := none, error := some e }, 1) := by
  simp [processItem, hd, hr]

theorem processItem_success (run : List ℚ → Except String (List ℚ)) (f : UFile)
    (t out : List ℚ) (hd : f.decoded = .ok t) (hr : run t = .ok out) :
    processItem run f =
      ({ filename := f.filename, success := true
         prediction := some { label := get_class_name (postprocess_output out).1
                              class_index := (postprocess_output out).1
                              confidence := round4 (postprocess_output out).2 }
         error := none }, 1) := by
  simp [processItem, hd, hr]

theorem batch_predict_accepted (run : List ℚ → Except String (List ℚ)) (files : List UFile)
    (h : files.length ≤ 10) :
    (batch_predict (some run) files).1 =
      .ok { success := true, total_images := files.length
            results := (processAll run files).1 } := by
  simp only [batch_predict]
  rw [if_neg (by omega)]

/-- C2: a batch of more than the configured maximum of 10 files is rejected
wholesale with the batch-too-large error before any per-item processing, and
the number of inference calls made on the rejected batch is zero. -/
theorem batch_too_large_rejected (run : List ℚ → Except String (List ℚ)) (files : List UFile)
    (h : 10 < files.length) :
    batch_predict (some run) files = (.error .batchTooLarge, 0) := by
  simp only [batch_predict]
  rw [if_pos h]

/-- Witness for C2: a batch of 11 files is rejected with zero inference
calls, for a session whose engine would fail if it were ever invoked. -/
theorem batch_too_large_rejected_witness :
    (10 < (List.replicate 11 (UFile.mk "img.jpg" (Except.error "bad image"))).length) ∧
    batch_predict (some (fun _ => Except.error "engine must not run"))
        (List.replicate 11 (UFile.mk "img.jpg" (Except.error "bad image"))) =
      (.error .batchTooLarge, 0) :=
  ⟨by decide,
   batch_too_large_rejected (fun _ => Except.error "engine must not run")
     (List.replicate 11 (UFile.mk "img.jpg" (Except.error "bad image"))) (by decide)⟩

/-- C3: an accepted batch (size at most 10) yields exactly one outcome per
input file, in input order: position `i` of the results carries the filename
of input `i`; a file whose decode fails yields a per-item
`success := false` outcome carrying the decode error, a file whose inference
fails yields a per-item `success := false` outcome carrying the engine
error, and a file whose pipeline succeeds yields a `success := true` outcome
carrying the prediction — items are processed independently, so any mix of
failing and succeeding items is answered item by item. -/
theorem batch_per_item_outcomes (run : List ℚ → Except String (List ℚ)) (files : List UFile)
    (h : files.length ≤ 10) :
    ∃ resp : BatchResp, (batch_predict (some run) files).1 = .ok resp ∧
      resp.results.length = files.length ∧
      ∀ i, i < files.length →
        ((resp.results.getD i default).filename = (files.getD i default).filename ∧
         (∀ e, (files.getD i default).decoded = .error e →
            resp.results.getD i default =
              { filename := (files.getD i default).filename, success := false
                prediction := none, error := some e }) ∧
         (∀ t e, (files.getD i default).decoded = .ok t → run t = .error e →
            resp.results.getD i default =
              { filename := (files.getD i default).filename, success := false
                prediction := none, error := some e }) ∧
         (∀ t out, (files.getD i default).decoded = .ok t → run t = .ok out →
            resp.results.getD i default =
              { filename := (files.getD i default).filename, success := true
                prediction := some { label := get_class_name (postprocess_output out).1
                                     class_index := (postprocess_output out).1
                                     confidence := round4 (postprocess_output out).2 }
                error := none })) := by
  refine ⟨_, batch_predict_accepted run files h, processAll_length run files, ?_⟩
  intro i hi
  have hg := processAll_getD run files i hi
  refine ⟨?_, ?_, ?_, ?_⟩
  · rw [hg]; exact processItem_filename run _
  · intro e hd
    rw [hg, processItem_decode_error run _ e hd]
  · intro t e hd hr
    rw [hg, processItem_run_error run _ t e hd hr]
  · intro t out hd hr
    rw [hg, processItem_success run _ t out hd hr]

/-- Witness for C3: a two-file batch whose first file decodes and whose
second fails to decode, against the echoing engine. -/
theorem batch_per_item_outcomes_witness :
    (sampleBatch.length ≤ 10) ∧
    (∃ resp : BatchResp,
      (batch_predict (some sampleRun) sampleBatch).1 = .ok resp ∧
      resp.results.length = sampleBatch.length ∧
      ∀ i, i < sampleBatch.length →
        ((resp.results.getD i default).filename = (sampleBatch.getD i default).filename ∧
         (∀ e, (sampleBatch.getD i default).decoded = .error e →
            resp.results.getD i default =
              { filename := (sampleBatch.getD i default).filename, success := false
                prediction := none, error := some e }) ∧
         (∀ t e, (sampleBatch.getD i default).decoded = .ok t → sampleRun t = .error e →
            resp.results.getD i default =
              { filename := (sampleBatch.getD i default).filename, success := false
                prediction := none, error := some e }) ∧
         (∀ t out, (sampleBatch.getD i default).decoded = .ok t → sampleRun t = .ok out →
            resp.results.getD i default =
              { filename := (sampleBatch.getD i default).filename, success := true
                prediction := some { label := get_class_name (postprocess_output out).1
                                     class_index := (postprocess_output out).1
                                     confidence := round4 (postprocess_output out).2 }
                error := none }))) :=
  ⟨by decide, batch_per_item_outcomes sampleRun sampleBatch (by decide)⟩

/-- C10: every accepted batch (size at most 10) is answered with a top-level
`success := true` and `total_images` equal to the number of submitted files
— for every engine behavior and every mix of per-item outcomes, including a
batch in which every item fails. -/
theorem batch_top_level_success (run : List ℚ → Except String (List ℚ)) (files : List UFile)
    (h : files.length ≤ 10) :
    ∃ resp : BatchResp, (batch_predict (some run) files).1 = .ok resp ∧
      resp.success = true ∧ resp.total_images = files.length :=
  ⟨_, batch_predict_accepted run files h, rfl, rfl⟩

/-- Witness for C10: a two-file batch in which both files fail to decode is
still answered `success := true` with `total_images = 2`; the first conjunct
evaluates the full response, showing every per-item outcome failed. -/
theorem batch_top_level_success_witness :
    ((batch_predict (some (fun _ => Except.error "engine down"))
        [UFile.mk "a.jpg" (Except.error "bad"), UFile.mk "b.jpg" (Except.error "worse")]).1 =
      .ok { success := true, total_images := 2
            results := [{ filename := "a.jpg", success := false, prediction := none
                          error := some "bad" },
                        { filename := "b.jpg", success := false, prediction := none
                          error := some "worse" }] }) ∧
    (∃ resp : BatchResp,
      (batch_predict (some (fun _ => Except.error "engine down"))
        [UFile.mk "a.jpg" (Except.error "bad"), UFile.mk "b.jpg" (Except.error "worse")]).1 = .ok resp ∧
      resp.success = true ∧
      resp.total_images =
        ([UFile.mk "a.jpg" (Except.error "bad"), UFile.mk "b.jpg" (Except.error "worse")]).length) :=
  ⟨by decide,
   batch_top_level_success (fun _ => Except.error "engine down")
     [UFile.mk "a.jpg" (Except.error "bad"), UFile.mk "b.jpg" (Except.error "worse")] (by decide)⟩

/-- C6 counterexample: the app service's `postprocess_output` reports the
maximum raw model score as the confidence with no normalization, so for the
valid raw output `[2.0, 0.5]` (the very logit vector of the spec's own
softmax scenario) the returned confidence is `2.0`, outside `[0, 1]`. -/
theorem confidence_escapes_unit_interval :
    (postprocess_output [2, 1/2]).2 = 2 ∧ ¬ (postprocess_output [2, 1/2]).2 ≤ 1 := by
  constructor
  · norm_num [postprocess_output, npMaxD, max_def]
  · norm_num [postprocess_output, npMaxD, max_def]

/-- C6 (amended): for every valid image (every nonempty raw output vector)
the app service's predict returns `class_index` equal to the arg-max
position of the raw output, which is within the bounds of that vector; the
label is resolved through the class list, with an out-of-range index
yielding `"unknown"` rather than a failure; and the confidence equals the
maximum raw score — which lies in `[0, 1]` whenever all raw scores do (the
case of a model that already outputs probabilities), though not for general
logits. -/
theorem postprocess_bounds (output : List ℚ) (h : output ≠ []) :
    (postprocess_output output).1 < output.length ∧
    ((postprocess_output output).1 < classes.length →
      get_class_name (postprocess_output output).1 =
        classes.getD (postprocess_output output).1 "unknown") ∧
    (¬ (postprocess_output output).1 < classes.length →
      get_class_name (postprocess_output output).1 = "unknown") ∧
    (postprocess_output output).2 ∈ output ∧
    (∀ x ∈ output, x ≤ (postprocess_output output).2) ∧
    ((∀ x ∈ output, 0 ≤ x ∧ x ≤ 1) →
      0 ≤ (postprocess_output output).2 ∧ (postprocess_output output).2 ≤ 1) := by
  refine ⟨npArgmax_lt_length output h, ?_, ?_, npMaxD_mem 0 output h, ?_, ?_⟩
  · intro hlt
    rw [get_class_name, dif_pos hlt, List.getD_eq_getElem classes "unknown" hlt]
    rfl
  · intro hge
    rw [get_class_name, dif_neg hge]
  · intro x hx
    exact le_npMaxD 0 output x hx
  · intro hb
    have hm := npMaxD_mem 0 output h
    exact ⟨(hb _ hm).1, (hb _ hm).2⟩

/-- Witness for the amended C6 at the raw output `[2, 1/2]`. -/
theorem postprocess_bounds_witness :
    (([2, 1/2] : List ℚ) ≠ []) ∧
    ((postprocess_output [2, 1/2]).1 < ([2, 1/2] : List ℚ).length ∧
    ((postprocess_output [2, 1/2]).1 < classes.length →
      get_class_name (postprocess_output [2, 1/2]).1 =
        classes.getD (postprocess_output [2, 1/2]).1 "unknown") ∧
    (¬ (postprocess_output [2, 1/2]).1 < classes.length →
      get_class_name (postprocess_output [2, 1/2]).1 = "unknown") ∧
    (postprocess_output [2, 1/2]).2 ∈ ([2, 1/2] : List ℚ) ∧
    (∀ x ∈ ([2, 1/2] : List ℚ), x ≤ (postprocess_output [2, 1/2]).2) ∧
    ((∀ x ∈ ([2, 1/2] : List ℚ), 0 ≤ x ∧ x ≤ 1) →
      0 ≤ (postprocess_output [2, 1/2]).2 ∧ (postprocess_output [2, 1/2]).2 ≤ 1)) :=
  ⟨by simp, postprocess_bounds [2, 1/2] (by simp)⟩

end AppMain

/-- C4 counterexample: in `src/app/main.py` the startup `load_model` logs a
load failure and then **re-raises** it (line 62), so with the model artifact
missing the exception escapes the startup hook — FastAPI aborts startup —
instead of leaving the service running degraded as the claim requires. -/
theorem app_load_failure_propagates :
    AppMain.load_model_app ⟨false, true⟩ AppMain.sampleRun =
      Except.error ScriptsApp.LoadFailure.fileNotFound := rfl

/-- C4 (amended): if the model artifact is missing or malformed at startup,
the load transition fails and the session stays unloaded, and every
subsequent inference call fails fast with a model-not-loaded error instead
of an unhandled exception; in the scripts service (`src/scripts/app.py`) the
failure is also logged without crashing — its startup hook always completes
— whereas in the app service (`src/app/main.py`) `load_model` logs and then
re-raises the failure, so its startup aborts rather than continuing
degraded. -/
theorem model_load_failure_degraded (env : ScriptsApp.ArtifactEnv) (engine : ScriptsApp.Sess)
    (h : ¬ (env.artifactExists = true ∧ env.wellFormed = true)) :
    ScriptsApp.load_model env engine = (false, none) ∧
    ScriptsApp.startup_event env engine = .ok none ∧
    (∀ img : List ℚ, ScriptsApp.predict_image none img = .error .modelNotLoaded) ∧
    (∀ files : List AppMain.UFile,
      AppMain.batch_predict none files = (.error .modelNotLoaded, 0)) := by
  have hl : ScriptsApp.load_model env engine = (false, none) := by
    unfold ScriptsApp.load_model
    by_cases ha : env.artifactExists = false
    · rw [if_pos ha]
    · have ha' : env.artifactExists = true := by
        cases henv : env.artifactExists
        · exact absurd henv ha
        · rfl
      have hw : env.wellFormed = false := by
        cases hwf : env.wellFormed
        · rfl
        · exact absurd ⟨ha', hwf⟩ h
      rw [if_neg ha, hw]
      simp
  refine ⟨hl, ?_, ?_, ?_⟩
  · unfold ScriptsApp.startup_event
    rw [hl]
  · intro img; rfl
  · intro files; rfl

namespace ScriptsApp

open VehicleAPI

theorem softmaxProbs_eq (logits : List ℝ) :
    softmaxProbs logits =
      (logits.map (fun x => Real.exp (x - npMaxD 0 logits))).map
        (fun e => e / (logits.map (fun x => Real.exp (x - npMaxD 0 logits))).sum) := rfl

/-- C7: the per-class probabilities of `predict_image` are computed in the
numerically stabilized form `exp(score - max(scores)) / sum(exp(scores -
max(scores)))` — this is the definition of `softmaxProbs`, embedded from
lines 91-92 of `src/scripts/app.py` — and for every nonempty vector of
(real-modelled) logits, however extreme, the resulting distribution sums to
exactly 1, hence to 1 within the tolerance `1e-6`. -/
theorem softmax_sums_to_one (logits : List ℝ) (h : logits ≠ []) :
    (softmaxProbs logits).sum = 1 ∧ |(softmaxProbs logits).sum - 1| ≤ 1 / 1000000 := by
  have hne : logits.map (fun x => Real.exp (x - npMaxD 0 logits)) ≠ [] := by
    simpa using h
  have hpos : 0 < (logits.map (fun x => Real.exp (x - npMaxD 0 logits))).sum := by
    apply List.sum_pos
    · intro a ha
      rcases List.mem_map.mp ha with ⟨x, hx, rfl⟩
      exact Real.exp_pos _
    · exact hne
  have hsum : (softmaxProbs logits).sum = 1 := by
    rw [softmaxProbs_eq, list_sum_map_div, div_self (ne_of_gt hpos)]
  exact ⟨hsum, by rw [hsum]; norm_num⟩

/-- Witness for C7 at the logit vector `[2.0, 0.5]`. -/
theorem softmax_sums_to_one_witness :
    (([2, 1/2] : List ℝ) ≠ []) ∧
    ((softmaxProbs [2, 1/2]).sum = 1 ∧ |(softmaxProbs [2, 1/2]).sum - 1| ≤ 1 / 1000000) :=
  ⟨by simp, softmax_sums_to_one [2, 1/2] (by simp)⟩

theorem softmax_pair (a b : ℝ) (hba : b ≤ a) :
    softmaxProbs [a, b] =
      [1 / (1 + Real.exp (b - a)), Real.exp (b - a) / (1 + Real.exp (b - a))] := by
  have hm : npMaxD 0 [a, b] = a := by
    simp [npMaxD, max_eq_left hba]
  simp [softmaxProbs, hm, sub_self, Real.exp_zero]

theorem npArgmax_pair_first (p q : ℝ) (h : ¬ p < q) : npArgmax [p, q] = 0 := by
  simp [npArgmax, argmaxFrom, h]

theorem exp_neg_three_halves_bounds :
    0.22312 < Real.exp (1/2 - 2) ∧ Real.exp (1/2 - 2) < 0.22314 := by
  have hypos : 0 < Real.exp ((1:ℝ)/2 - 2) := Real.exp_pos _
  have hyy : Real.exp ((1:ℝ)/2 - 2) * Real.exp ((1:ℝ)/2 - 2) = Real.exp (-3) := by
    rw [← Real.exp_add]; norm_num
  have h3 : Real.exp (-3) * Real.exp 3 = (1:ℝ) := by
    rw [← Real.exp_add]; norm_num
  have hyE : Real.exp ((1:ℝ)/2 - 2) * Real.exp ((1:ℝ)/2 - 2) * Real.exp 3 = 1 := by
    rw [hyy]; exact h3
  have hcube : Real.exp (3:ℝ) = Real.exp 1 ^ (3 : ℕ) := by
    rw [← Real.exp_nat_mul]; norm_num
  have he1 : (2.7182818283 : ℝ) < Real.exp 1 := Real.exp_one_gt_d9
  have he2 : Real.exp 1 < 2.7182818286 := Real.exp_one_lt_d9
  have hlo3 : (2.7182818283:ℝ) ^ (3:ℕ) < Real.exp 1 ^ (3:ℕ) :=
    pow_lt_pow_left₀ he1 (by norm_num) (by norm_num)
  have hhi3 : Real.exp 1 ^ (3:ℕ) < (2.7182818286:ℝ) ^ (3:ℕ) :=
    pow_lt_pow_left₀ he2 (le_of_lt (Real.exp_pos 1)) (by norm_num)
  have hq1 : (20.0855 : ℝ) < 2.7182818283 ^ (3:ℕ) := by norm_num
  have hq2 : (2.7182818286:ℝ) ^ (3:ℕ) < 20.0856 := by norm_num
  have h3lo : (20.0855 : ℝ) < Real.exp 3 := by
    rw [hcube]; exact lt_trans hq1 hlo3
  have h3hi : Real.exp 3 < (20.0856 : ℝ) := by
    rw [hcube]; exact lt_trans hhi3 hq2
  have hE0 : (0:ℝ) < Real.exp 3 := Real.exp_pos 3
  constructor
  · nlinarith [hyE, h3hi, hypos, hE0]
  · nlinarith [hyE, h3lo, hypos, hE0]

theorem predict_image_some_eq (s : Sess) (img : List ℚ) (logits : List ℝ)
    (hr : s.run img = .ok logits) (hidx : npArgmax (softmaxProbs logits) = 0)
    (hlen : 0 < CONFIG_class_names.length) :
    predict_image (some s) img = .ok
      { predicted_class := CONFIG_class_names.get ⟨0, hlen⟩
        confidence := rRound2 ((softmaxProbs logits).getD 0 0 * 100)
        probabilities := (List.range CONFIG_class_names.length).map
          (fun i => (CONFIG_class_names.getD i "", rRound2 ((softmaxProbs logits).getD i 0 * 100))) } := by
  simp only [predict_image]
  rw [hr]
  simp only [hidx]
  rw [dif_pos hlen]

/-- C8: for the two-class model (`front`, `rear`) and the raw logit vector
`[2.0, 0.5]`, softmax decoding picks index 0, the predicted label is
`"front"`, and the softmax confidence for `front` is `0.8176` to within
`1e-4` (the handler then reports it scaled to percent). -/
theorem softmax_front_scenario :
    ∃ out : PredictOut,
      predict_image (some logitEngine) [] = .ok out ∧
      out.predicted_class = "front" ∧
      npArgmax (softmaxProbs [2, 1/2]) = 0 ∧
      |(softmaxProbs [2, 1/2]).getD 0 0 - 0.8176| < 1 / 10000 := by
  have hba : ((1:ℝ)/2) ≤ 2 := by norm_num
  have hsp := softmax_pair 2 (1/2) hba
  obtain ⟨hy1, hy2⟩ := exp_neg_three_halves_bounds
  set y := Real.exp ((1:ℝ)/2 - 2) with hydef
  have hypos : 0 < y := Real.exp_pos _
  have h1y : (0:ℝ) < 1 + y := by linarith
  have hple : y / (1 + y) ≤ 1 / (1 + y) :=
    (div_le_div_iff_of_pos_right h1y).mpr (by linarith)
  have hnotlt : ¬ (1 / (1 + y) < y / (1 + y)) := not_lt.mpr hple
  have hidx : npArgmax (softmaxProbs [2, 1/2]) = 0 := by
    rw [hsp]; exact npArgmax_pair_first _ _ hnotlt
  have hget : (softmaxProbs [2, 1/2]).getD 0 0 = 1 / (1 + y) := by
    rw [hsp]; rfl
  have hinv : (1 + y) * (1 / (1 + y)) = 1 := mul_one_div_cancel (ne_of_gt h1y)
  have hbound : |(softmaxProbs [2, 1/2]).getD 0 0 - 0.8176| < 1 / 10000 := by
    rw [hget, abs_lt]
    constructor
    · nlinarith [hinv, hy1, hy2, h1y]
    · nlinarith [hinv, hy1, hy2, h1y]
  exact ⟨_, predict_image_some_eq logitEngine [] [2, 1/2] rfl hidx (by decide), rfl, hidx, hbound⟩

end ScriptsApp

/-- Witness for the amended C4: the artifact is missing. -/
theorem model_load_failure_degraded_witness :
    (¬ ((⟨false, true⟩ : ScriptsApp.ArtifactEnv).artifactExists = true ∧
        (⟨false, true⟩ : ScriptsApp.ArtifactEnv).wellFormed = true)) ∧
    (ScriptsApp.load_model ⟨false, true⟩ ScriptsApp.noEngine = (false, none) ∧
    ScriptsApp.startup_event ⟨false, true⟩ ScriptsApp.noEngine = .ok none ∧
    (∀ img : List ℚ, ScriptsApp.predict_image none img = .error .modelNotLoaded) ∧
    (∀ files : List AppMain.UFile,
      AppMain.batch_predict none files = (.error .modelNotLoaded, 0))) :=
  ⟨by decide, model_load_failure_degraded ⟨false, true⟩ ScriptsApp.noEngine (by decide)⟩
